import Mathlib

/-!
Verification of the NamAstra wish-to-filter resolution and deterministic
name search pipeline (`src/app/page.tsx` and `src/app/api/parse-wishes/route.ts`).

The embedding below translates the TypeScript source directly:
* the enumerated string unions (`GENDERS`, `DEITIES`, `SOURCES`, `SCRIPTS`,
  `THEMES`, vibe, popularity) become inductive types;
* `NameRecord` and `WishFilters` become structures; every optional field of
  `WishFilters` is an `Option`, where `none` stands for a JavaScript
  absent/undefined/null (falsy) field;
* `MOCK_NAMES` is the five-record corpus, in source order;
* `searchNames` is the sequential conditional filter with the cap of 40,
  including the JavaScript truthiness tests of the source
  (`filters.gender || n.gender`, `if (filters.syllables)`,
  `filters.deity && filters.deity !== "None"`, `.length` emptiness tests);
* the spread merge `{ ...filters, ...parsed }` of `runParseAndSearch` becomes
  `mergeFilters`, the astrology stub `getNakshatra` is translated verbatim,
  and the enrichment guard mirrors
  `merged.vedicMode && merged.birth?.date && merged.birth?.time && merged.birth?.place`;
* the parse route's `JSON.parse`-or-`rawText` fallback becomes `routePOST`,
  and a transport failure of the collaborator call (a rejected `fetch`,
  which the source's `try`/`finally` does not catch) is modelled as an
  `Except.error` outcome threaded through `runParseAndSearch`.
-/

-- ---------- Types (string unions of the source) ----------

/-- GENDERS = ["boy", "girl", "unisex"]. -/
inductive Gender where
  | boy | girl | unisex
deriving DecidableEq

/-- DEITIES = ["None", "Vishnu", "Shiva", "Devi", "Ganesha", "Murugan", "Rama", "Krishna", "Multiple"]. -/
inductive Deity where
  | none | vishnu | shiva | devi | ganesha | murugan | rama | krishna | multiple
deriving DecidableEq

/-- SOURCES = ["Vedas", "Upanishads", "Puranas", "Epics", "Sahasranama", "Regional", "Sanskrit", "None"]. -/
inductive Source where
  | vedas | upanishads | puranas | epics | sahasranama | regional | sanskrit | none
deriving DecidableEq

/-- SCRIPTS = ["Latin", "Devanagari", "Tamil", "Telugu", "Kannada", "Malayalam", "Gujarati", "Gurmukhi", "Bengali-Assamese"]. -/
inductive Script where
  | latin | devanagari | tamil | telugu | kannada | malayalam | gujarati | gurmukhi | bengaliAssamese
deriving DecidableEq

/-- THEMES = ["Virtue", "Nature", "Royal", "Modern", "Traditional", "Scholarly", "Warrior", "Music"]. -/
inductive Theme where
  | virtue | nature | royal | modern | traditional | scholarly | warrior | music
deriving DecidableEq

/-- Vibe union "soft" | "strong" | "any" of `WishFilters.vibe`. -/
inductive Vibe where
  | soft | strong | any
deriving DecidableEq

/-- Popularity union "rare" | "uncommon" | "common" of `NameRecord.popularity`. -/
inductive Popularity where
  | rare | uncommon | common
deriving DecidableEq

/-- Birth descriptor `{ date?: string; time?: string; place?: string }`. -/
structure Birth where
  date : Option String
  time : Option String
  place : Option String
deriving DecidableEq

/-- NameRecord of the source. `scripts` (a partial record) is an association list. -/
structure NameRecord where
  id : String
  name : String
  gender : Gender
  scripts : List (Script × String)
  syllables : Nat
  phoneticStart : String
  deityAffinity : Deity
  sources : List Source
  meaning : String
  language : String
  regionTags : List String
  modernity : Nat
  globalPronounce : Nat
  nicknames : List String
  related : List String
  popularity : Option Popularity
deriving DecidableEq

/-- WishFilters of the source. Each optional field is an `Option`; `none`
models a JavaScript absent / undefined / null (falsy) field. The source
declares `gender` as required, but upstream merging can leave it falsy, so it
is optional here as well (the matcher defends with `filters.gender || n.gender`).
`rawText` is the extra key carried by the parse route's fallback payload
`{ rawText: content }`; it is merged into the filter object by the spread but
never read by the matcher. -/
structure WishFilters where
  gender : Option Gender
  syllables : Option Nat
  script : Option Script
  deity : Option Deity
  sources : Option (List Source)
  themes : Option (List Theme)
  startLetters : Option (List String)
  vibe : Option Vibe
  lengthMax : Option Int
  globalPronounce : Option Bool
  birth : Option Birth
  vedicMode : Option Bool
  startSounds : Option (List String)
  rawText : Option String
deriving DecidableEq

/-- Filter object with every field absent. -/
def emptyFilters : WishFilters where
  gender := none
  syllables := none
  script := none
  deity := none
  sources := none
  themes := none
  startLetters := none
  vibe := none
  lengthMax := none
  globalPronounce := none
  birth := none
  vedicMode := none
  startSounds := none
  rawText := none

-- ---------- Mock dataset (the five records, in source order) ----------

/-- Corpus record 1. -/
def vihaan : NameRecord where
  id := "1"
  name := "Vihaan"
  gender := Gender.boy
  scripts := [(Script.latin, "Vihaan"), (Script.devanagari, "विहान")]
  syllables := 2
  phoneticStart := "Vi"
  deityAffinity := Deity.vishnu
  sources := [Source.sahasranama, Source.puranas]
  meaning := "Dawn; the first ray of sun"
  language := "Sanskrit"
  regionTags := ["Pan-India"]
  modernity := 4
  globalPronounce := 4
  nicknames := ["Vii", "Han"]
  related := ["Vivaan", "Vihan"]
  popularity := some Popularity.common

/-- Corpus record 2. -/
def vedant : NameRecord where
  id := "2"
  name := "Vedant"
  gender := Gender.boy
  scripts := [(Script.latin, "Vedant"), (Script.devanagari, "वेदान्त")]
  syllables := 2
  phoneticStart := "Ve"
  deityAffinity := Deity.none
  sources := [Source.upanishads]
  meaning := "The end/culmination of the Veda; knowledge of the Self"
  language := "Sanskrit"
  regionTags := ["Pan-India"]
  modernity := 3
  globalPronounce := 3
  nicknames := ["Ved"]
  related := ["Vedanta", "Vedan"]
  popularity := some Popularity.common

/-- Corpus record 3. -/
def vasu : NameRecord where
  id := "3"
  name := "Vasu"
  gender := Gender.boy
  scripts := [(Script.latin, "Vasu"), (Script.devanagari, "वसु")]
  syllables := 2
  phoneticStart := "Va"
  deityAffinity := Deity.vishnu
  sources := [Source.sahasranama, Source.puranas]
  meaning := "Wealthy; one of the eight Vasus; an epithet of Vishnu"
  language := "Sanskrit"
  regionTags := ["North", "South"]
  modernity := 3
  globalPronounce := 4
  nicknames := ["Vas"]
  related := ["Vasudev", "Vasuman"]
  popularity := some Popularity.uncommon

/-- Corpus record 4. -/
def hriday : NameRecord where
  id := "4"
  name := "Hriday"
  gender := Gender.boy
  scripts := [(Script.latin, "Hriday"), (Script.devanagari, "हृदय")]
  syllables := 2
  phoneticStart := "Hri/Hr"
  deityAffinity := Deity.none
  sources := [Source.sanskrit]
  meaning := "Heart; core"
  language := "Sanskrit"
  regionTags := ["Pan-India"]
  modernity := 3
  globalPronounce := 2
  nicknames := ["Hri"]
  related := ["Hridaya"]
  popularity := some Popularity.uncommon

/-- Corpus record 5. -/
def harish : NameRecord where
  id := "5"
  name := "Harish"
  gender := Gender.boy
  scripts := [(Script.latin, "Harish"), (Script.devanagari, "हरीश")]
  syllables := 2
  phoneticStart := "Ha"
  deityAffinity := Deity.vishnu
  sources := [Source.puranas]
  meaning := "Lord Vishnu; lord of Hari"
  language := "Sanskrit"
  regionTags := ["Pan-India"]
  modernity := 2
  globalPronounce := 4
  nicknames := ["Hari"]
  related := ["Harishchandra", "Haridas"]
  popularity := some Popularity.common

/-- MOCK_NAMES, in source insertion order. -/
def MOCK_NAMES : List NameRecord := [vihaan, vedant, vasu, hriday, harish]

-- ---------- JavaScript truthiness helpers ----------

/-- Truthiness of an optional number (`if (filters.syllables)`): absent,
undefined, null and 0 are all falsy. -/
def truthyNat : Option Nat → Bool
  | some k => k != 0
  | Option.none => false

/-- Guard `filters.deity && filters.deity !== "None"`. -/
def deityActive : Option Deity → Bool
  | some d => d != Deity.none
  | Option.none => false

/-- Guard `filters.xs && filters.xs.length` (also `filters.xs?.length`):
active only when the list is present and non-empty. -/
def listActive {α : Type} : Option (List α) → Bool
  | some l => !l.isEmpty
  | Option.none => false

/-- Gender test of the matcher: `n.gender === (filters.gender || n.gender)`. -/
def genderPass (filters : WishFilters) (n : NameRecord) : Bool :=
  n.gender == (filters.gender.getD n.gender)

-- ---------- The Name Matcher ----------

/-- Translation of `searchNames` (src/app/page.tsx lines 191-200): the
sequence of conditional filters over `MOCK_NAMES` followed by `slice(0, 40)`. -/
def searchNames (filters : WishFilters) : List NameRecord :=
  let out := MOCK_NAMES.filter fun n => genderPass filters n
  let out := if truthyNat filters.syllables then
      out.filter fun n => some n.syllables == filters.syllables
    else out
  let out := if deityActive filters.deity then
      out.filter fun n => some n.deityAffinity == filters.deity || n.deityAffinity == Deity.multiple
    else out
  let out := if listActive filters.sources then
      out.filter fun n => n.sources.any fun s => (filters.sources.getD []).contains s
    else out
  let out := if listActive filters.startLetters then
      out.filter fun n => (filters.startLetters.getD []).any fun s => n.name.toLower.startsWith s.toLower
    else out
  let out := if listActive filters.startSounds then
      out.filter fun n => (filters.startSounds.getD []).any fun s => n.phoneticStart.toLower.startsWith s.toLower
    else out
  out.take 40

-- ---------- The Filter Resolver ----------

/-- Spread semantics of one field of `{ ...A, ...B }`: a field present in B
overwrites; a field absent in B keeps A's value. -/
def orKeep {α : Type} (b a : Option α) : Option α :=
  match b with
  | some v => some v
  | Option.none => a

/-- Translation of the merge `{ ...filters, ...parsed }` in
`runParseAndSearch` (src/app/page.tsx line 346): a shallow, per-top-level-field
spread; `birth` is taken as a unit from whichever side supplies it. -/
def mergeFilters (A B : WishFilters) : WishFilters where
  gender := orKeep B.gender A.gender
  syllables := orKeep B.syllables A.syllables
  script := orKeep B.script A.script
  deity := orKeep B.deity A.deity
  sources := orKeep B.sources A.sources
  themes := orKeep B.themes A.themes
  startLetters := orKeep B.startLetters A.startLetters
  vibe := orKeep B.vibe A.vibe
  lengthMax := orKeep B.lengthMax A.lengthMax
  globalPronounce := orKeep B.globalPronounce A.globalPronounce
  birth := orKeep B.birth A.birth
  vedicMode := orKeep B.vedicMode A.vedicMode
  startSounds := orKeep B.startSounds A.startSounds
  rawText := orKeep B.rawText A.rawText

/-- Resolver merge written from the spec's words, for comparison with the
source's spread: "fields present in B overwrite the corresponding field in A;
fields absent in B leave A's value untouched. The merge is shallow per
top-level field (nested `birth` object is treated as a unit, not deep-merged
with B)." -/
def resolveSpec (A B : WishFilters) : WishFilters where
  gender := if B.gender.isSome then B.gender else A.gender
  syllables := if B.syllables.isSome then B.syllables else A.syllables
  script := if B.script.isSome then B.script else A.script
  deity := if B.deity.isSome then B.deity else A.deity
  sources := if B.sources.isSome then B.sources else A.sources
  themes := if B.themes.isSome then B.themes else A.themes
  startLetters := if B.startLetters.isSome then B.startLetters else A.startLetters
  vibe := if B.vibe.isSome then B.vibe else A.vibe
  lengthMax := if B.lengthMax.isSome then B.lengthMax else A.lengthMax
  globalPronounce := if B.globalPronounce.isSome then B.globalPronounce else A.globalPronounce
  birth := if B.birth.isSome then B.birth else A.birth
  vedicMode := if B.vedicMode.isSome then B.vedicMode else A.vedicMode
  startSounds := if B.startSounds.isSome then B.startSounds else A.startSounds
  rawText := if B.rawText.isSome then B.rawText else A.rawText

/-- Truthiness of an optional string (`merged.birth?.date` and friends):
absent, undefined and the empty string are falsy. -/
def truthyStr : Option String → Bool
  | some s => !s.isEmpty
  | Option.none => false

/-- Truthiness of an optional boolean (`merged.vedicMode`). -/
def truthyBool : Option Bool → Bool
  | some b => b
  | Option.none => false

/-- Guard `merged.birth?.date && merged.birth?.time && merged.birth?.place`. -/
def birthComplete : Option Birth → Bool
  | some b => truthyStr b.date && truthyStr b.time && truthyStr b.place
  | Option.none => false

/-- Result shape of the astrology collaborator. -/
structure AstroResult where
  nakshatra : String
  pada : Nat
  startSounds : List String
deriving DecidableEq

/-- Translation of the stub `getNakshatra` (src/app/page.tsx lines 185-189):
a placeholder returning the fixed Pushya mapping. -/
def getNakshatra (_birth : Birth) : AstroResult where
  nakshatra := "Pushya"
  pada := 3
  startSounds := ["Hu", "He", "Ho", "Da"]

/-- Enrichment step of `runParseAndSearch` (src/app/page.tsx lines 347-350):
`if (merged.vedicMode && merged.birth?.date && merged.birth?.time && merged.birth?.place)
 { merged.startSounds = (await getNakshatra(merged.birth)).startSounds }`. -/
def enrichStartSounds (merged : WishFilters) : WishFilters :=
  if truthyBool merged.vedicMode && birthComplete merged.birth then
    match merged.birth with
    | some b => { merged with startSounds := some (getNakshatra b).startSounds }
    | Option.none => merged
  else merged

-- ---------- The parse route and the pipeline ----------

/-- Output of the text-completion model inside the parse route, as the route
observes it: either content that `JSON.parse` accepts (already shaped into a
filter fragment) or content it rejects. -/
inductive ModelOutput where
  | json (fragment : WishFilters)
  | nonJson (content : String)

/-- Translation of the route handler `POST` (src/app/api/parse-wishes/route.ts
lines 22-30): `JSON.parse` success returns the parsed fragment; on failure the
route answers with the bare payload `{ rawText: content }`. -/
def routePOST : ModelOutput → WishFilters
  | ModelOutput.json fragment => fragment
  | ModelOutput.nonJson content => { emptyFilters with rawText := some content }

/-- Translation of `runParseAndSearch` (src/app/page.tsx lines 342-357). The
`outcome` argument is what `await parseWishesLLM(wishes)` delivers: `Except.ok`
carries the route's JSON body, while `Except.error` models a rejected fetch
(collaborator unreachable). The source wraps the body in `try { ... } finally
{ setLoading(false) }` with no catch clause, so a rejection propagates out of
the function; this is the `Except.error` branch below. -/
def runParseAndSearch (filters : WishFilters) (outcome : Except Unit WishFilters) :
    Except Unit (WishFilters × List NameRecord) :=
  match outcome with
  | Except.error e => Except.error e
  | Except.ok parsed =>
    let merged := mergeFilters filters parsed
    let merged := enrichStartSounds merged
    Except.ok (merged, searchNames merged)

/-- Initial UI filter state (src/app/page.tsx line 327):
`{ gender: "boy", script: "Latin", vibe: "any", vedicMode: false, lengthMax: null, globalPronounce: true }`. -/
def initialFilters : WishFilters :=
  { emptyFilters with
    gender := some Gender.boy
    script := some Script.latin
    vibe := some Vibe.any
    vedicMode := some false
    lengthMax := none
    globalPronounce := some true }

-- ---------- Derived forms of the matcher, shared by the proofs ----------

/-- Per-record conjunction equivalent to the staged filters of `searchNames`:
each stage contributes `stage inactive ∨ stage test` exactly as the source
guards it. -/
def recordPass (f : WishFilters) (n : NameRecord) : Bool :=
  genderPass f n
    && (!truthyNat f.syllables || some n.syllables == f.syllables)
    && (!deityActive f.deity || (some n.deityAffinity == f.deity || n.deityAffinity == Deity.multiple))
    && (!listActive f.sources || n.sources.any fun s => (f.sources.getD []).contains s)
    && (!listActive f.startLetters || (f.startLetters.getD []).any fun s => n.name.toLower.startsWith s.toLower)
    && (!listActive f.startSounds || (f.startSounds.getD []).any fun s => n.phoneticStart.toLower.startsWith s.toLower)

theorem stage_filter {α : Type} (c : Bool) (p : α → Bool) (l : List α) :
    (if c then l.filter p else l) = l.filter (fun a => !c || p a) := by
  cases c <;> simp

theorem bool_reassoc (a b c d e g : Bool) :
    (g && (e && (d && (c && (b && a))))) = (a && b && c && d && e && g) := by
  cases a <;> cases b <;> cases c <;> cases d <;> cases e <;> cases g <;> rfl

/-- The staged conditional filters of `searchNames` collapse to one filter of
the conjunction `recordPass`, followed by the cap. -/
theorem searchNames_eq (f : WishFilters) :
    searchNames f = (MOCK_NAMES.filter (recordPass f)).take 40 := by
  simp only [searchNames, stage_filter]
  simp only [List.filter_filter]
  congr 1
  apply List.filter_congr
  intro x _
  simp only [recordPass]
  exact bool_reassoc _ _ _ _ _ _

theorem mock_length_le : MOCK_NAMES.length ≤ 40 := by decide

/-- On the five-record corpus the cap of 40 never bites. -/
theorem searchNames_eq_filter (f : WishFilters) :
    searchNames f = MOCK_NAMES.filter (recordPass f) := by
  rw [searchNames_eq, List.take_of_length_le]
  exact le_trans (List.filter_sublist MOCK_NAMES).length_le mock_length_le

theorem mem_searchNames {f : WishFilters} {r : NameRecord} :
    r ∈ searchNames f ↔ r ∈ MOCK_NAMES ∧ recordPass f r = true := by
  rw [searchNames_eq_filter]; exact List.mem_filter

-- ---------- The spec's constraint table ----------

/-- Per-record conjunction of the spec's constraint table, transcribed from
the claim's wording: each constraint is active exactly when the field is
present (for `deity`, present and different from the sentinel "None"; for the
list-typed fields, present and non-empty). In particular a present `syllables`
value is always an active exact-equality constraint. -/
def SatisfiesActiveConstraints (f : WishFilters) (n : NameRecord) : Bool :=
  (match f.gender with
    | some g => n.gender == g
    | Option.none => true)
    && (match f.syllables with
        | some k => n.syllables == k
        | Option.none => true)
    && (match f.deity with
        | some d => if d == Deity.none then true
            else n.deityAffinity == d || n.deityAffinity == Deity.multiple
        | Option.none => true)
    && (match f.sources with
        | some l => if l.isEmpty then true else n.sources.any fun s => l.contains s
        | Option.none => true)
    && (match f.startLetters with
        | some l => if l.isEmpty then true else l.any fun s => n.name.toLower.startsWith s.toLower
        | Option.none => true)
    && (match f.startSounds with
        | some l => if l.isEmpty then true else l.any fun s => n.phoneticStart.toLower.startsWith s.toLower
        | Option.none => true)

/-- Amended per-record conjunction: identical to `SatisfiesActiveConstraints`
except that a `syllables` value of zero deactivates the syllable constraint,
mirroring the JavaScript truthiness test `if (filters.syllables)` of the
source. -/
def SatisfiesAmendedConstraints (f : WishFilters) (n : NameRecord) : Bool :=
  (match f.gender with
    | some g => n.gender == g
    | Option.none => true)
    && (match f.syllables with
        | some k => if k == 0 then true else n.syllables == k
        | Option.none => true)
    && (match f.deity with
        | some d => if d == Deity.none then true
            else n.deityAffinity == d || n.deityAffinity == Deity.multiple
        | Option.none => true)
    && (match f.sources with
        | some l => if l.isEmpty then true else n.sources.any fun s => l.contains s
        | Option.none => true)
    && (match f.startLetters with
        | some l => if l.isEmpty then true else l.any fun s => n.name.toLower.startsWith s.toLower
        | Option.none => true)
    && (match f.startSounds with
        | some l => if l.isEmpty then true else l.any fun s => n.phoneticStart.toLower.startsWith s.toLower
        | Option.none => true)

theorem isEmpty_eq_decide {α : Type} [DecidableEq α] (l : List α) :
    l.isEmpty = decide (l = []) := by
  cases l <;> simp

theorem not_bne_eq_decide {α : Type} [DecidableEq α] (a b : α) :
    (!(a != b)) = decide (a = b) := by
  by_cases h : a = b <;> simp [h]

/-- What the code's staged filter accepts is exactly the amended constraint
table. -/
theorem recordPass_eq_amended (f : WishFilters) (n : NameRecord) :
    recordPass f n = SatisfiesAmendedConstraints f n := by
  obtain ⟨g, sy, sc, de, so, th, sl, vb, lm, gp, bi, vm, ss, rt⟩ := f
  simp only [recordPass, SatisfiesAmendedConstraints, genderPass, truthyNat, deityActive,
    listActive]
  cases g <;> cases sy <;> cases de <;> cases so <;> cases sl <;> cases ss <;>
    simp [isEmpty_eq_decide, not_bne_eq_decide]

/-- The constraint table as claimed implies the amended one: the two differ
only at a zero syllable count, where the amended table demands nothing. -/
theorem strict_imp_amended (f : WishFilters) (n : NameRecord)
    (h : SatisfiesActiveConstraints f n = true) :
    SatisfiesAmendedConstraints f n = true := by
  obtain ⟨g, sy, sc, de, so, th, sl, vb, lm, gp, bi, vm, ss, rt⟩ := f
  simp only [SatisfiesActiveConstraints, Bool.and_eq_true] at h
  obtain ⟨⟨⟨⟨⟨h1, h2⟩, h3⟩, h4⟩, h5⟩, h6⟩ := h
  simp only [SatisfiesAmendedConstraints, Bool.and_eq_true]
  refine ⟨⟨⟨⟨⟨h1, ?_⟩, h3⟩, h4⟩, h5⟩, h6⟩
  cases sy with
  | none => exact h2
  | some k =>
    cases hk : (k == 0)
    · simpa [hk] using h2
    · simp [hk]

-- ---------- Concrete filters used by scenarios and witnesses ----------

/-- Scenario filter `{gender: "boy", deity: "Vishnu"}`. -/
def filterBoyVishnu : WishFilters :=
  { emptyFilters with gender := some Gender.boy, deity := some Deity.vishnu }

/-- Filter with a present-but-zero syllable count `{gender: "boy", syllables: 0}`. -/
def filterSyllableZero : WishFilters :=
  { emptyFilters with gender := some Gender.boy, syllables := some 0 }

/-- Filter whose deity field carries the sentinel "None". -/
def filterDeityNone : WishFilters :=
  { emptyFilters with deity := some Deity.none }

/-- Variant of the initial UI filters that differs only in fields the matcher
never reads (script, themes, vibe, lengthMax, globalPronounce, birth,
vedicMode, and a merged rawText payload). -/
def noiseFilters : WishFilters :=
  { initialFilters with
    script := none
    themes := some [Theme.nature]
    vibe := some Vibe.soft
    lengthMax := some 8
    globalPronounce := some false
    birth := some { date := some "2024-01-01", time := some "10:00", place := some "Chennai" }
    vedicMode := some true
    rawText := some "modern vibe, easy to pronounce" }

/-- Scenario 5 baseline `{gender: "boy"}`. -/
def boyBaseline : WishFilters := { emptyFilters with gender := some Gender.boy }

/-- Scenario 5 parse fragment `{syllables: 2}`. -/
def syllTwoFragment : WishFilters := { emptyFilters with syllables := some 2 }

/-- Baseline holding a fully populated nested birth object. -/
def fullBirthBaseline : WishFilters :=
  { emptyFilters with
    birth := some { date := some "2024-01-01", time := some "10:00", place := some "Chennai" } }

/-- Fragment whose birth object carries only a place. -/
def placeOnlyFragment : WishFilters :=
  { emptyFilters with birth := some { date := none, time := none, place := some "Delhi" } }

-- ---------- Claims ----------

/-- C1 (counterexample): soundness as claimed fails on the code. With the
filter `{gender: "boy", syllables: 0}` the syllable field is set, yet the
JavaScript truthiness guard `if (filters.syllables)` skips the stage, so the
returned record Vihaan (2 syllables) violates the claimed exact-equality
constraint. -/
theorem searchNames_syllable_zero_breaks_soundness :
    vihaan ∈ searchNames filterSyllableZero
      ∧ SatisfiesActiveConstraints filterSyllableZero vihaan = false := by
  decide

/-- C1 (amended): soundness of the Name Matcher. Every record returned by
`searchNames F` satisfies every active constraint of F — gender equal when
present, syllables equal when set to a nonzero value (a zero value, like an
absent one, deactivates the constraint), deity equal or "Multiple" when the
deity field is present and not "None", a shared source tag when the source
list is non-empty, and the lowercase prefix tests for startLetters and
startSounds when non-empty. -/
theorem searchNames_sound_amended (f : WishFilters) (r : NameRecord)
    (h : r ∈ searchNames f) : SatisfiesAmendedConstraints f r = true := by
  rw [← recordPass_eq_amended]
  exact (mem_searchNames.mp h).2

/-- Witness for C1's amended soundness at the scenario filter and Vihaan. -/
theorem searchNames_sound_amended_witness :
    SatisfiesAmendedConstraints filterBoyVishnu vihaan = true :=
  searchNames_sound_amended filterBoyVishnu vihaan (by decide)

/-- C2: completeness up to cap. Every corpus record satisfying every active
constraint of F appears in `searchNames F`; on the five-record corpus the cap
of 40 can never exclude anything, so membership is unconditional. -/
theorem searchNames_complete (f : WishFilters) (r : NameRecord)
    (hmem : r ∈ MOCK_NAMES) (hsat : SatisfiesActiveConstraints f r = true) :
    r ∈ searchNames f := by
  rw [mem_searchNames]
  refine ⟨hmem, ?_⟩
  rw [recordPass_eq_amended]
  exact strict_imp_amended f r hsat

/-- Witness for C2 at the scenario filter and Vasu. -/
theorem searchNames_complete_witness :
    vasu ∈ MOCK_NAMES
      ∧ SatisfiesActiveConstraints filterBoyVishnu vasu = true
      ∧ vasu ∈ searchNames filterBoyVishnu :=
  ⟨by decide, by decide, searchNames_complete filterBoyVishnu vasu (by decide) (by decide)⟩

/-- C5: ordering and cap. For every filter, `searchNames` returns exactly the
satisfying subset of the corpus in its fixed insertion order (the filtered
list, no re-ranking), truncated to at most 40 entries; the output is a
sublist of the corpus and its length never exceeds 40, with records beyond
the cap silently dropped by `slice(0, 40)` rather than raising an error. -/
theorem searchNames_order_and_cap (f : WishFilters) :
    searchNames f = (MOCK_NAMES.filter (recordPass f)).take 40
      ∧ (searchNames f).Sublist MOCK_NAMES
      ∧ (searchNames f).length ≤ 40 := by
  refine ⟨searchNames_eq f, ?_, ?_⟩
  · rw [searchNames_eq_filter]
    exact List.filter_sublist MOCK_NAMES
  · rw [searchNames_eq]
    exact List.length_take_le 40 _

/-- C8: concrete scenario. The filter `{gender: "boy", deity: "Vishnu"}`
returns exactly Vihaan, Vasu, Harish in corpus order; those are precisely the
records with deityAffinity "Vishnu", and no corpus record has "Multiple". -/
theorem scenario_boy_vishnu :
    searchNames filterBoyVishnu = [vihaan, vasu, harish]
      ∧ MOCK_NAMES.filter (fun n => n.deityAffinity == Deity.vishnu) = [vihaan, vasu, harish]
      ∧ MOCK_NAMES.all (fun n => n.deityAffinity != Deity.multiple) = true := by
  decide

theorem orKeep_eq {α : Type} (b a : Option α) :
    orKeep b a = if b.isSome then b else a := by
  cases b <;> rfl

/-- C3: merge precedence of the Filter Resolver. The spread
`{ ...filters, ...parsed }` realises exactly the spec's shallow per-field
precedence (`resolveSpec`): a field present in the fragment overwrites the
baseline field, an absent one leaves it untouched; the nested birth object is
taken as a unit from whichever side supplies it (the fragment's partial birth
object replaces the baseline's wholesale, it is not deep-merged); and
resolving the baseline `{gender:"boy"}` with the fragment `{syllables: 2}`
yields `{gender:"boy", syllables: 2}`. -/
theorem merge_precedence_shallow (A B : WishFilters) :
    mergeFilters A B = resolveSpec A B
      ∧ mergeFilters boyBaseline syllTwoFragment = { boyBaseline with syllables := some 2 }
      ∧ (mergeFilters fullBirthBaseline placeOnlyFragment).birth
          = some { date := none, time := none, place := some "Delhi" }
      ∧ fullBirthBaseline.birth
          = some { date := some "2024-01-01", time := some "10:00", place := some "Chennai" } := by
  refine ⟨?_, by decide, by decide, by decide⟩
  simp only [mergeFilters, resolveSpec, orKeep_eq]

/-- Tab union "quick" | "vedic" of the UI state. -/
inductive Tab where
  | quick | vedic
deriving DecidableEq

/-- Enrichment step of `onSearch` (src/app/page.tsx lines 359-370): the copy
`const merged = { ...filters }` followed by
`if (tab === "vedic" && merged.birth?.date && merged.birth?.time && merged.birth?.place)
 { merged.startSounds = (await getNakshatra(merged.birth)).startSounds }`.
Unlike `runParseAndSearch`, this guard tests the active tab, not the resolved
filter's `vedicMode` flag. -/
def onSearchEnrich (tab : Tab) (filters : WishFilters) : WishFilters :=
  if (tab == Tab.vedic) && birthComplete filters.birth then
    match filters.birth with
    | some b => { filters with startSounds := some (getNakshatra b).startSounds }
    | Option.none => filters
  else filters

/-- Remainder of `onSearch`: the search runs on the (possibly enriched) copy. -/
def onSearch (tab : Tab) (filters : WishFilters) : List NameRecord :=
  searchNames (onSearchEnrich tab filters)

/-- Filter state with vedic mode enabled and a complete birth descriptor, as
produced by filling the three birth inputs of the Vedic tab (each input
handler sets `vedicMode: true` alongside its birth field). -/
def vedicCompleteFilters : WishFilters :=
  { emptyFilters with
    gender := some Gender.boy
    vedicMode := some true
    birth := some { date := some "2024-01-01", time := some "10:00", place := some "Chennai" } }

/-- C4 (counterexample): enrichment as claimed fails on the direct-search
path. `onSearch` gates on `tab === "vedic"`, not on the resolved filter's
`vedicMode` flag. The birth inputs set `vedicMode: true`, the tab toggles
independently, and the quick-filters Search button is always available, so a
reachable run of `onSearch` has the quick tab active while vedic mode is
enabled and all three birth fields are present — and it leaves `startSounds`
unset instead of setting it to the astrology collaborator's list, searching
the un-enriched filters. -/
theorem quick_tab_skips_enrichment :
    truthyBool vedicCompleteFilters.vedicMode = true
      ∧ birthComplete vedicCompleteFilters.birth = true
      ∧ (onSearchEnrich Tab.quick vedicCompleteFilters).startSounds = none
      ∧ onSearch Tab.quick vedicCompleteFilters = searchNames vedicCompleteFilters := by
  exact ⟨rfl, rfl, rfl, rfl⟩

/-- C4 (amended): enrichment gating per path. In the parse-and-search path
(`runParseAndSearch`) the resolved filter's `startSounds` is overwritten with
the astrology collaborator's phonetic-sound list exactly when the filter's
vedic-mode flag is truthy and all three birth fields are present and
non-empty. In the direct-search path (`onSearch`) the same overwrite is
gated on the active tab being "vedic" together with the complete birth
descriptor, not on the filter's vedic-mode flag. In every other case — in
particular whenever any birth field is missing, and on the quick tab in the
direct path even with vedic mode enabled — `startSounds` keeps its
pre-enrichment value (it is never cleared). -/
theorem enrichment_gating_amended (f : WishFilters) (tab : Tab) :
    ((enrichStartSounds f).startSounds =
      if truthyBool f.vedicMode && birthComplete f.birth then
        some (getNakshatra (f.birth.getD { date := none, time := none, place := none })).startSounds
      else f.startSounds)
    ∧ ((onSearchEnrich tab f).startSounds =
      if (tab == Tab.vedic) && birthComplete f.birth then
        some (getNakshatra (f.birth.getD { date := none, time := none, place := none })).startSounds
      else f.startSounds) := by
  constructor
  · unfold enrichStartSounds
    cases hb : f.birth with
    | none => simp [birthComplete]
    | some b =>
      cases hc : (truthyBool f.vedicMode && birthComplete (some b)) <;> simp [hb, hc]
  · unfold onSearchEnrich
    cases hb : f.birth with
    | none => simp [birthComplete]
    | some b =>
      cases hc : ((tab == Tab.vedic) && birthComplete (some b)) <;> simp [hb, hc]

/-- C6: the graceful-degradation claim is broken by a transport failure. The
route does recover from malformed model content (the second conjunct: a
raw-text payload merges without contributing any matching constraint, and the
search completes on the baseline filters), but `runParseAndSearch` wraps the
collaborator call in `try { ... } finally { ... }` with no catch clause, so a
rejected fetch propagates out of the resolver boundary instead of falling
back to the baseline filters (the first conjunct). -/
theorem parse_transport_failure_escapes :
    runParseAndSearch initialFilters (Except.error ()) = Except.error ()
      ∧ runParseAndSearch initialFilters
          (Except.ok (routePOST (ModelOutput.nonJson "here are a few lovely names")))
        = Except.ok ({ initialFilters with rawText := some "here are a few lovely names" },
            searchNames initialFilters) := by
  exact ⟨rfl, rfl⟩

/-- C9: the deity value "None" deactivates the deity constraint. A filter
whose deity field is "None" searches exactly like one with no deity field at
all, and concretely the corpus filtered only by `deity: "None"` returns every
record, whatever its deityAffinity ("Vishnu" or "None" alike). -/
theorem deity_none_deactivates (f : WishFilters) (hd : f.deity = some Deity.none) :
    searchNames f = searchNames { f with deity := none }
      ∧ searchNames filterDeityNone = MOCK_NAMES := by
  refine ⟨?_, by decide⟩
  rw [searchNames_eq_filter, searchNames_eq_filter]
  apply List.filter_congr
  intro x _
  simp [recordPass, genderPass, hd, deityActive]

/-- Witness for C9 at the concrete deity-"None" filter. -/
theorem deity_none_deactivates_witness :
    searchNames filterDeityNone = searchNames { filterDeityNone with deity := none }
      ∧ searchNames filterDeityNone = MOCK_NAMES :=
  deity_none_deactivates filterDeityNone rfl

/-- C10: noninterference of unread filter fields. Two filters agreeing on
gender, syllables, deity, sources, startLetters and startSounds produce
identical ordered results, whatever their script, themes, vibe, lengthMax,
globalPronounce, birth, vedicMode or rawText fields hold. -/
theorem searchNames_noninterference (f g : WishFilters)
    (h1 : f.gender = g.gender) (h2 : f.syllables = g.syllables)
    (h3 : f.deity = g.deity) (h4 : f.sources = g.sources)
    (h5 : f.startLetters = g.startLetters) (h6 : f.startSounds = g.startSounds) :
    searchNames f = searchNames g := by
  rw [searchNames_eq_filter, searchNames_eq_filter]
  apply List.filter_congr
  intro x _
  simp only [recordPass, genderPass, h1, h2, h3, h4, h5, h6]

/-- Witness for C10: the initial UI filters against a variant differing in
every unread field. -/
theorem searchNames_noninterference_witness :
    searchNames initialFilters = searchNames noiseFilters :=
  searchNames_noninterference initialFilters noiseFilters rfl rfl rfl rfl rfl rfl
